import Mathlib

/-!
Verification of the AgentAuth Python SDK (agentauth_sdk) against its design
specification. The definitions below are a shallow embedding of the modules
agentauth_sdk/utils.py, agentauth_sdk/client.py and the permission grammar.
Python exceptions are modelled with Except, JSON values with an inductive
type, and the per-attempt outcome of the HTTP transport with a function from
the attempt index to an abstract outcome.
-/

namespace AgentAuth

/-- JSON values, as produced by response.json in the source. Objects are
modelled as association lists of fields. -/
inductive Json where
  | null : Json
  | bool (b : Bool) : Json
  | num (n : Int) : Json
  | str (s : String) : Json
  | arr (xs : List Json) : Json
  | obj (fields : List (String × Json)) : Json
deriving Repr, BEq

/-- Whether a JSON value is an object. Only objects come back as Python
dicts from response.json; every other value (list, string, number, boolean,
None) has no get method and no named attributes. -/
def Json.isObj : Json → Bool
  | .obj _ => true
  | _ => false

/-- Exceptions that can cross the retry machinery, from utils.py and
client.py. requestError models httpx.RequestError (network failure);
httpStatusError models httpx.HTTPStatusError as raised by
response.raise_for_status; agentAuthError models the AgentAuthError class of
utils.py lines 11-18 (message, status_code, details); jsonDecodeError models
the exception raised by response.json on an unparsable 2xx body; typeError
models the TypeError raised by dataclass construction by keyword expansion
from a mismatched dict; attributeError models the AttributeError raised by
attribute or method access on a value that does not support it (the get call
on a non-dict error body on client.py line 155, and the access_token access
on a plain dict on client.py line 220). The constructor retriesExhausted is
Modelled from the spec: section 7 names a RetriesExhaustedError that wraps
the last classified error once the attempt budget is spent; the source
defines no such exception class, and the constructor exists only so that
statements about it can be written. -/
inductive SdkError where
  | requestError : SdkError
  | httpStatusError (status_code : Nat) : SdkError
  | agentAuthError (message : Json) (status_code : Nat) (details : Json) : SdkError
  | jsonDecodeError : SdkError
  | typeError : SdkError
  | attributeError : SdkError
  | retriesExhausted (inner : SdkError) : SdkError
deriving Repr, BEq

/-- Whether an error is a RetriesExhaustedError wrapper in the sense of
section 7 of the spec. -/
def SdkError.isRetriesExhaustedWrapper : SdkError → Bool
  | .retriesExhausted _ => true
  | _ => false

/-- Embedding of is_retryable_error (utils.py lines 21-40): httpx
RequestError instances are always retryable; httpx HTTPStatusError instances
are retryable iff the status code is at least 500 or equals 429; every other
exception, AgentAuthError included, falls through to the final return False. -/
def is_retryable_error : SdkError → Bool
  | .requestError => true
  | .httpStatusError status_code => decide (500 ≤ status_code) || decide (status_code = 429)
  | _ => false

/-- Embedding of the loop of retry_with_backoff (utils.py lines 64-81). The
argument f gives the outcome of the call of func on each zero-indexed
attempt. The Python loop re-raises the caught exception when it is not
retryable or the attempt index has reached max_retries, and otherwise sleeps
and moves to the next attempt; equivalently, it continues exactly when the
error is retryable and attempt < max_retries. The second component of the
result counts the calls of func that were made. The code after the loop
(utils.py lines 83-86) is unreachable, as the source comment there notes,
because the final iteration always returns or raises. -/
def retryAux (f : Nat → Except SdkError α) : Nat → Nat → Except SdkError α × Nat
  | remaining, attempt =>
    match f attempt with
    | .ok v => (.ok v, 1)
    | .error e =>
      match remaining with
      | 0 => (.error e, 1)
      | r + 1 =>
        if is_retryable_error e then
          let rest := retryAux f r (attempt + 1)
          (rest.1, rest.2 + 1)
        else
          (.error e, 1)

/-- The loop of retry_with_backoff entered at a given attempt index: the
remaining budget is max_retries - attempt, which is zero exactly when the
attempt index has reached max_retries. -/
def retryRun (f : Nat → Except SdkError α) (max_retries : Nat) (attempt : Nat) :
    Except SdkError α × Nat :=
  retryAux f (max_retries - attempt) attempt

/-- Result of retry_with_backoff: the value of the first successful attempt,
or the exception raised out of the loop. -/
def retry_with_backoff (f : Nat → Except SdkError α) (max_retries : Nat) :
    Except SdkError α :=
  (retryRun f max_retries 0).1

/-- Number of calls of func made by retry_with_backoff. -/
def retryCallCount (f : Nat → Except SdkError α) (max_retries : Nat) : Nat :=
  (retryRun f max_retries 0).2

/-- Embedding of the pre-jitter backoff delay (utils.py line 77):
delay = min of base_delay * 2 ^ attempt and max_delay. Delays are modelled
as rationals. -/
def backoffDelay (base_delay max_delay : ℚ) (attempt : Nat) : ℚ :=
  min (base_delay * 2 ^ attempt) max_delay

/-- Embedding of the total backoff delay (utils.py lines 78-79):
total_delay = delay + jitter, where jitter is drawn by random.uniform from
the closed interval from 0 to 0.3 * delay and is passed here as an explicit
argument. -/
def backoffTotalDelay (base_delay max_delay : ℚ) (attempt : Nat) (jitter : ℚ) : ℚ :=
  backoffDelay base_delay max_delay attempt + jitter

/-- Truthiness of the optional access token: Python treats both None and
the empty string as falsy in the condition on client.py line 134. -/
def tokenTruthy : Option String → Bool
  | none => false
  | some s => !(s == "")

/-- Embedding of the header construction of make_request (client.py lines
132-135): a JSON content type header always, and a bearer Authorization
header exactly when the request requires auth and the stored access token is
truthy. -/
def buildHeaders (requiresAuth : Bool) (accessToken : Option String) :
    List (String × String) :=
  if requiresAuth && tokenTruthy accessToken then
    [("Content-Type", "application/json"),
     ("Authorization", "Bearer " ++ accessToken.getD "")]
  else
    [("Content-Type", "application/json")]

/-- Outcome of one transport call (client.request on client.py lines
138-144): either a response with a status code and the result of parsing its
body as JSON (none when the body is not valid JSON), or a network-level
failure raising httpx.RequestError. -/
inductive TransportOutcome where
  | response (status : Nat) (body : Option Json) : TransportOutcome
  | netError : TransportOutcome

/-- Model of the str rendering of an httpx.HTTPStatusError, used as the
default message when the error body carries no error field (client.py line
155). Only its dependence on the status code matters here. -/
def statusLineMessage (status : Nat) : String :=
  "HTTP status error " ++ toString status

/-- Whether a status code is a success in the sense of
response.raise_for_status (client.py line 145), which raises
httpx.HTTPStatusError for every non-2xx response. -/
def is_success_status (status : Nat) : Bool :=
  decide (200 ≤ status) && decide (status ≤ 299)

/-- Embedding of the inner function make_request (client.py lines 129-158).
A network failure from client.request propagates as a raw RequestError (the
except clause on line 147 catches only httpx.HTTPStatusError). On a 2xx
response the parsed JSON body is returned; if the 2xx body is not valid
JSON, response.json raises and that exception propagates raw. On a non-2xx
response, raise_for_status raises httpx.HTTPStatusError, which is caught:
the error body is the parsed response body when it parses as JSON and the
empty dict otherwise. When the error body is a dict, the get call on line
155 yields the error field when present and the str of the underlying error
otherwise, and an AgentAuthError with that message, the response status code
and the error body as details is raised. When the response body parses as
non-object JSON (a list, string, number, boolean or None), the error body is
not a dict, so the get call itself raises AttributeError, which propagates
raw out of the except clause. -/
def make_request (transport : List (String × String) → TransportOutcome)
    (requiresAuth : Bool) (accessToken : Option String) : Except SdkError Json :=
  let headers := buildHeaders requiresAuth accessToken
  match transport headers with
  | .netError => .error .requestError
  | .response status body =>
    if is_success_status status then
      match body with
      | some data => .ok data
      | none => .error .jsonDecodeError
    else
      let errorBody := body.getD (Json.obj [])
      match errorBody with
      | .obj fields =>
        let msg := (fields.lookup "error").getD (Json.str (statusLineMessage status))
        .error (.agentAuthError msg status errorBody)
      | _ => .error .attributeError

/-- Client state (client.py lines 54-78): base URL, optional API key and
access token, retry budget, and the lazily created httpx.AsyncClient handle,
modelled as Option Unit. -/
structure AgentAuthClient where
  base_url : String
  api_key : Option String
  access_token : Option String
  max_retries : Nat
  httpClient : Option Unit
deriving Repr

/-- Embedding of validate_base_url (utils.py lines 89-110): rejects the
empty string, then any string not starting with the http or https scheme,
then any string ending with a slash. The startswith and endswith checks are
modelled over the character list of the string. -/
def validate_base_url (url : String) : Except String Unit :=
  if url = "" then
    .error "base_url must be a non-empty string"
  else if !("http://".data.isPrefixOf url.data || "https://".data.isPrefixOf url.data) then
    .error "Invalid base_url: must start with the http or https scheme"
  else if "/".data.isSuffixOf url.data then
    .error "base_url should not end with a trailing slash"
  else
    .ok ()

/-- Model of the Python str.rstrip applied with a slash argument (client.py
line 73): removes every trailing slash. -/
def rstripSlash (s : String) : String :=
  String.mk ((s.data.reverse.dropWhile (fun ch => ch = '/')).reverse)

/-- Embedding of the constructor of AgentAuthClient (client.py lines 54-78):
validates the base URL first and raises its ValueError synchronously before
any field is set or any request is made; on success the client starts with
no transport handle. -/
def clientInit (base_url : String) (api_key access_token : Option String)
    (max_retries : Nat) : Except String AgentAuthClient :=
  match validate_base_url base_url with
  | .error e => .error e
  | .ok _ =>
    .ok { base_url := rstripSlash base_url, api_key := api_key,
          access_token := access_token, max_retries := max_retries,
          httpClient := none }

/-- Embedding of set_access_token (client.py lines 96-98). -/
def set_access_token (c : AgentAuthClient) (token : String) : AgentAuthClient :=
  { c with access_token := some token }

/-- Embedding of set_api_key (client.py lines 100-102). -/
def set_api_key (c : AgentAuthClient) (key : String) : AgentAuthClient :=
  { c with api_key := some key }

/-- Embedding of the lazy handle creation in _get_client (client.py lines
90-94): the underlying httpx.AsyncClient is created on first use and reused
afterwards. -/
def getClient (c : AgentAuthClient) : AgentAuthClient :=
  match c.httpClient with
  | some _ => c
  | none => { c with httpClient := some () }

/-- Embedding of close (client.py lines 854-858): when a handle exists,
aclose is called on it and the handle field is cleared; otherwise nothing
happens. The second component counts the aclose calls made by this call. -/
def close (c : AgentAuthClient) : AgentAuthClient × Nat :=
  match c.httpClient with
  | some _ => ({ c with httpClient := none }, 1)
  | none => (c, 0)

/-- Embedding of the dispatch _request (client.py lines 104-163): the inner
make_request closure, reading the stored access token at header-construction
time, is driven by retry_with_backoff with the client retry budget. The
first component is the surfaced result, the second the number of transport
calls made. -/
def clientRequest (c : AgentAuthClient)
    (transport : Nat → List (String × String) → TransportOutcome)
    (requiresAuth : Bool) : Except SdkError Json × Nat :=
  retryRun (fun attempt => make_request (transport attempt) requiresAuth c.access_token)
    c.max_retries 0

/-- Result of the VerifyAgentResponse dataclass construction by keyword
expansion on client.py line 217. A stdlib dataclass neither checks the
declared field types nor builds the nested Agent and Token dataclasses
declared in types.py lines 83-90, so each field simply holds the raw JSON
value of the corresponding key of the parsed response body. -/
structure VerifyAgentResponseRaw where
  success : Json
  message : Json
  agent : Json
  token : Json
deriving Repr, BEq

/-- Whether every key of a JSON object is among the declared field names:
dataclass construction with keyword expansion raises TypeError on an
unexpected key. -/
def objKeysSubset (fields : List (String × Json)) (allowed : List String) : Bool :=
  fields.all (fun kv => allowed.contains kv.1)

/-- Construction of VerifyAgentResponse by keyword expansion (client.py
line 217) from the parsed response body: every declared key must be present
and no undeclared key may appear (either raises TypeError), but the values
are taken as they are, with no type check and no nested construction. A
non-dict body also raises TypeError under keyword expansion. -/
def VerifyAgentResponseRaw.fromJson? (j : Json) : Option VerifyAgentResponseRaw :=
  match j with
  | .obj fields =>
    if objKeysSubset fields ["success", "message", "agent", "token"] then
      match fields.lookup "success", fields.lookup "message",
          fields.lookup "agent", fields.lookup "token" with
      | some s, some m, some a, some t =>
        some { success := s, message := m, agent := a, token := t }
      | _, _, _, _ => none
    else none
  | _ => none

/-- Python attribute access of access_token on the token field (client.py
line 220). The field holds a value produced by response.json: a dict, list,
string, number, boolean or None. None of these Python types carries an
access_token attribute (a dict exposes its keys through indexing and get,
not as attributes), so the access raises AttributeError for every possible
value. -/
def attrAccessToken : Json → Except SdkError String :=
  fun _ => .error .attributeError

/-- Embedding of verify_agent (client.py lines 197-222): dispatches a POST
to the verify path without auth, constructs VerifyAgentResponse by keyword
expansion, then evaluates response.token.access_token to hand to
set_access_token. Because the token field holds the raw JSON value of the
token key, that attribute access raises AttributeError before
set_access_token can run; the success branch is kept to mirror the shape of
the source. The agent_id and api_key arguments form the request body, which
the abstract transport closes over. -/
def verify_agent (c : AgentAuthClient)
    (transport : Nat → List (String × String) → TransportOutcome)
    (_agent_id _api_key : String) :
    Except SdkError VerifyAgentResponseRaw × AgentAuthClient :=
  match (clientRequest c transport false).1 with
  | .error e => (.error e, c)
  | .ok data =>
    match VerifyAgentResponseRaw.fromJson? data with
    | none => (.error .typeError, c)
    | some response =>
      match attrAccessToken response.token with
      | .error e => (.error e, c)
      | .ok tok => (.ok response, set_access_token c tok)

/-- Modelled from the spec: the repository source under src contains only
the permission constants and their Literal types (permissions.py); the
matcher and validator described in section 4.1 of the spec are not part of
the Python SDK source. Splitting a permission string into its colon
separated segments. -/
def splitSegsAux : List Char → List Char → List (List Char)
  | [], acc => [acc.reverse]
  | ch :: rest, acc =>
    if ch = ':' then acc.reverse :: splitSegsAux rest []
    else splitSegsAux rest (ch :: acc)

/-- Modelled from the spec: the list of colon separated segments of a
permission string. -/
def splitPerm (p : String) : List String :=
  (splitSegsAux p.data []).map String.mk

/-- Modelled from the spec: a lowercase letter between a and z. -/
def isLowerAZ (ch : Char) : Bool :=
  decide ('a' ≤ ch) && decide (ch ≤ 'z')

/-- Modelled from the spec: a character allowed after the first one in an
identifier segment: lowercase letter, digit, or underscore. -/
def isIdentTailChar (ch : Char) : Bool :=
  isLowerAZ ch || (decide ('0' ≤ ch) && decide (ch ≤ '9')) || decide (ch = '_')

/-- Modelled from the spec: a segment matching the identifier rule of
section 4.1, a lowercase letter followed by lowercase letters, digits or
underscores. -/
def segIsIdent (s : String) : Bool :=
  match s.data with
  | [] => false
  | ch :: rest => isLowerAZ ch && rest.all isIdentTailChar

/-- Modelled from the spec: a well-formed segment is the wildcard or an
identifier. -/
def segIsValid (s : String) : Bool :=
  s == "*" || segIsIdent s

/-- Modelled from the spec: a permission is well-formed iff it has exactly
three segments and each is the wildcard or an identifier. -/
def permWellFormed (p : String) : Bool :=
  (splitPerm p).length == 3 && (splitPerm p).all segIsValid

/-- Modelled from the spec: a held segment matches a required segment iff
the held one is the wildcard or the two are equal. -/
def segMatches (held required : String) : Bool :=
  held == "*" || held == required

/-- Modelled from the spec: section 4.1 matching, positionwise over the
three segments of the held and the required permission. -/
def permMatches (held required : String) : Bool :=
  match splitPerm held, splitPerm required with
  | [h0, h1, h2], [r0, r1, r2] => segMatches h0 r0 && segMatches h1 r1 && segMatches h2 r2
  | _, _ => false

/-- Modelled from the spec: has_permission is true iff the required
permission is well-formed and some held permission matches it. -/
def has_permission (held_set : List String) (required : String) : Bool :=
  permWellFormed required && held_set.any (fun h => permMatches h required)

/-- Client fixture for concrete evaluations: a freshly constructed client
with the default retry budget of 3 and no credentials. -/
def clientC1 : AgentAuthClient :=
  { base_url := "https://auth.example.com", api_key := none, access_token := none,
    max_retries := 3, httpClient := none }

/-- Transport fixture for scenario A: a 503 response on the first two
attempts, then a 200 response with a JSON body. -/
def transport503then200 : Nat → List (String × String) → TransportOutcome :=
  fun attempt _ =>
    if attempt < 2 then .response 503 none
    else .response 200 (some (Json.obj [("ok", Json.bool true)]))

/-- The attempt outcomes scenario A intends the retry loop to see: the raw
httpx.HTTPStatusError for 503 twice, then the successful body. -/
def raw503then200 : Nat → Except SdkError Json :=
  fun attempt =>
    if attempt < 2 then .error (.httpStatusError 503)
    else .ok (Json.str "body")

/-- Transport fixture for a terminal 404 response with a JSON error body. -/
def transport404 : Nat → List (String × String) → TransportOutcome :=
  fun _ _ => .response 404 (some (Json.obj [("error", Json.str "not found")]))

/-- Single-call transport fixture with a 404 response, for make_request. -/
def rawTransport404 : List (String × String) → TransportOutcome :=
  fun _ => .response 404 (some (Json.obj [("error", Json.str "not found")]))

/-- Single-call transport fixture with a 500 response whose body parses as a
JSON array, a value on which the get call of client.py line 155 raises. -/
def rawTransport500Array : List (String × String) → TransportOutcome :=
  fun _ => .response 500 (some (Json.arr []))

/-- Whether a dispatch result surfaces a wrapped AgentAuthError. -/
def surfacedAsAgentAuthError : Except SdkError Json → Bool
  | .error (.agentAuthError _ _ _) => true
  | _ => false

/-- JSON body of a successful verify response, with the full agent and token
objects the dataclasses declare. -/
def verifyBody : Json := Json.obj [
  ("success", Json.bool true), ("message", Json.str "ok"),
  ("agent", Json.obj [("agent_id", Json.str "a1"), ("name", Json.str "support"),
      ("owner_email", Json.str "o"), ("permissions", Json.arr [Json.str "zendesk:tickets:read"]),
      ("status", Json.str "active"), ("tier", Json.str "free"),
      ("created_at", Json.str "t0"), ("updated_at", Json.str "t0")]),
  ("token", Json.obj [("access_token", Json.str "newtok"), ("refresh_token", Json.str "r"),
      ("token_type", Json.str "Bearer"), ("expires_in", Json.num 3600)])]

/-- Transport fixture returning the successful verify body on every call. -/
def verifyTransport : Nat → List (String × String) → TransportOutcome :=
  fun _ _ => .response 200 (some verifyBody)

theorem retryAux_calls_le (f : Nat → Except SdkError α) :
    ∀ remaining attempt : Nat, (retryAux f remaining attempt).2 ≤ remaining + 1 := by
  intro remaining
  induction remaining with
  | zero =>
    intro a
    rw [retryAux.eq_1]
    cases hf : f a <;> simp
  | succ r ih =>
    intro a
    rw [retryAux.eq_1]
    cases hf : f a with
    | ok v => simp
    | error e =>
      cases hre : is_retryable_error e
      · simp [hre]
      · simp [hre]
        have := ih (a + 1)
        omega

theorem retryAux_terminal (f : Nat → Except SdkError α) (e : SdkError)
    (remaining attempt : Nat) (hf : f attempt = .error e)
    (hre : is_retryable_error e = false) :
    retryAux f remaining attempt = (.error e, 1) := by
  cases remaining
  · rw [retryAux.eq_1, hf]
  · rw [retryAux.eq_1, hf]
    simp [hre]

theorem retryAux_exhausted (f : Nat → Except SdkError α) (errs : Nat → SdkError)
    (hf : ∀ i, f i = .error (errs i))
    (hre : ∀ i, is_retryable_error (errs i) = true) :
    ∀ remaining attempt : Nat,
      (retryAux f remaining attempt).1 = .error (errs (attempt + remaining)) := by
  intro remaining
  induction remaining with
  | zero =>
    intro a
    rw [retryAux.eq_1, hf a]
    rfl
  | succ r ih =>
    intro a
    rw [retryAux.eq_1, hf a]
    simp only [hre a, if_pos]
    have h := ih (a + 1)
    rw [show a + 1 + r = a + (r + 1) from by omega] at h
    simpa using h

/-- Claim C3: for every dispatched request the number of transport attempts
is at most max_retries + 1, and a non-retryable classification of the first
attempt stops the loop at once: the dispatch surfaces that error after
exactly one transport call, whatever budget remains. -/
theorem dispatch_attempt_budget (c : AgentAuthClient)
    (tr : Nat → List (String × String) → TransportOutcome) (ra : Bool) :
    (clientRequest c tr ra).2 ≤ c.max_retries + 1 ∧
    (∀ e, make_request (tr 0) ra c.access_token = .error e →
      is_retryable_error e = false →
      clientRequest c tr ra = (.error e, 1)) := by
  constructor
  · unfold clientRequest retryRun
    simpa using retryAux_calls_le _ _ 0
  · intro e he hre
    unfold clientRequest retryRun
    rw [Nat.sub_zero]
    exact retryAux_terminal _ e _ 0 he hre

theorem dispatch_attempt_budget_witness :
    clientRequest clientC1 transport404 false =
      (.error (.agentAuthError (Json.str "not found") 404
        (Json.obj [("error", Json.str "not found")])), 1) :=
  (dispatch_attempt_budget clientC1 transport404 false).2 _ (by rfl) (by rfl)

/-- Claim C4, counterexample: with every attempt failing with a retryable
network error and the budget of 3 retries spent, the surfaced error is the
bare last exception, not a RetriesExhaustedError wrapping it as the claim
states. -/
theorem retries_exhausted_unwrapped_counterexample :
    retry_with_backoff (fun _ => (.error .requestError : Except SdkError Json)) 3 =
      .error .requestError ∧
    ¬ retry_with_backoff (fun _ => (.error .requestError : Except SdkError Json)) 3 =
      .error (.retriesExhausted .requestError) := by
  constructor
  · rfl
  · intro h
    rw [show retry_with_backoff (fun _ => (.error .requestError : Except SdkError Json)) 3 =
      .error .requestError from rfl] at h
    simp at h

/-- Claim C4, amended: once the retry attempt budget is spent, the error
surfaced to the caller is the last classified error raised bare; the source
defines no RetriesExhaustedError wrapper. -/
theorem retries_exhausted_raises_last_error_bare (f : Nat → Except SdkError α)
    (max_retries : Nat) (errs : Nat → SdkError)
    (hf : ∀ i, f i = .error (errs i))
    (hre : ∀ i, is_retryable_error (errs i) = true) :
    retry_with_backoff f max_retries = .error (errs max_retries) := by
  unfold retry_with_backoff retryRun
  rw [Nat.sub_zero]
  simpa using retryAux_exhausted f errs hf hre max_retries 0

theorem retries_exhausted_raises_last_error_bare_witness :
    retry_with_backoff
        (fun i => (.error (.httpStatusError (500 + i)) : Except SdkError Json)) 2 =
      .error (.httpStatusError 502) :=
  retries_exhausted_raises_last_error_bare _ 2 (fun i => .httpStatusError (500 + i))
    (fun _ => rfl) (fun i => by simp [is_retryable_error])

/-- Claim C1: scenario A fails on the code. With max_retries = 3 and a
transport that returns 503 twice and then succeeds, the dispatch makes
exactly one transport call and surfaces an AgentAuthError for 503, because
make_request converts the httpx.HTTPStatusError into AgentAuthError before
is_retryable_error sees it, and AgentAuthError is never classified
retryable. The second and third conjuncts show the intent the retry
machinery itself documents: fed the raw 503 status errors, retry_with_backoff
returns the successful third body after exactly 3 calls. -/
theorem scenario_a_wrapped_503_not_retried :
    clientRequest clientC1 transport503then200 false =
      (.error (.agentAuthError (Json.str (statusLineMessage 503)) 503 (Json.obj [])), 1) ∧
    retry_with_backoff raw503then200 3 = .ok (Json.str "body") ∧
    retryCallCount raw503then200 3 = 3 :=
  ⟨rfl, rfl, rfl⟩

/-- Claim C5: the classifier returns true on network-level transport
failures; on an HTTP status error it returns true iff the status is at least
500 or equals 429; every status in 400-428 and 430-499 is terminal. -/
theorem error_classifier_spec :
    is_retryable_error .requestError = true ∧
    (∀ s : Nat, is_retryable_error (.httpStatusError s) = true ↔ (500 ≤ s ∨ s = 429)) ∧
    (∀ s : Nat, 400 ≤ s → s ≤ 499 → s ≠ 429 →
      is_retryable_error (.httpStatusError s) = false) := by
  refine ⟨rfl, ?_, ?_⟩
  · intro s
    simp [is_retryable_error]
  · intro s h1 h2 h3
    simp [is_retryable_error]
    omega

theorem error_classifier_spec_witness :
    is_retryable_error (.httpStatusError 404) = false :=
  error_classifier_spec.2.2 404 (by decide) (by decide) (by decide)

/-- Claim C6: the total backoff delay for attempt a equals the minimum of
base_delay * 2 ^ a and max_delay plus the jitter; when the jitter lies in
the closed interval from 0 to 3/10 of that minimum, the total delay never
exceeds 13/10 * max_delay, and the pre-jitter delay is monotone
non-decreasing in the attempt index up to the max_delay cap. -/
theorem backoff_delay_spec (base_delay max_delay jitter : ℚ) (a a2 : Nat)
    (hb : 0 ≤ base_delay) (hj0 : 0 ≤ jitter)
    (hj : jitter ≤ 3 / 10 * backoffDelay base_delay max_delay a) (haa : a ≤ a2) :
    backoffTotalDelay base_delay max_delay a jitter
      = min (base_delay * 2 ^ a) max_delay + jitter ∧
    backoffTotalDelay base_delay max_delay a jitter ≤ 13 / 10 * max_delay ∧
    backoffDelay base_delay max_delay a ≤ backoffDelay base_delay max_delay a2 := by
  refine ⟨rfl, ?_, ?_⟩
  · have hraw : backoffDelay base_delay max_delay a ≤ max_delay := min_le_right _ _
    unfold backoffTotalDelay
    linarith
  · unfold backoffDelay
    have hpow : (2 : ℚ) ^ a ≤ 2 ^ a2 := pow_le_pow_right₀ (by norm_num) haa
    exact min_le_min (mul_le_mul_of_nonneg_left hpow hb) le_rfl

theorem backoff_delay_spec_witness :
    backoffTotalDelay 1 10 0 0 = min ((1 : ℚ) * 2 ^ 0) 10 + 0 ∧
    backoffTotalDelay 1 10 0 0 ≤ 13 / 10 * 10 ∧
    backoffDelay 1 10 0 ≤ backoffDelay 1 10 3 :=
  backoff_delay_spec 1 10 0 0 3 (by norm_num) (by norm_num)
    (by norm_num [backoffDelay]) (by norm_num)

/-- Claim C9: close clears the client handle, makes at most one aclose
call, a second close of the resulting client is a no-op making no aclose
call, and close of a client with no handle (never used or already closed)
returns it unchanged with no aclose call. -/
theorem close_is_idempotent (c : AgentAuthClient) :
    (close c).1.httpClient = none ∧
    (close c).2 ≤ 1 ∧
    close (close c).1 = ((close c).1, 0) ∧
    (c.httpClient = none → close c = (c, 0)) := by
  obtain ⟨b, k, t, m, hc⟩ := c
  cases hc <;> simp [close]

theorem close_is_idempotent_witness : close clientC1 = (clientC1, 0) :=
  (close_is_idempotent clientC1).2.2.2 rfl

/-- Claim C7: scenario C fails on the code. On the concrete wire-shaped
verify response the dispatch succeeds and the dataclass constructs, but the
token field holds the raw JSON object of the token key, so the attribute
access response.token.access_token on client.py line 220 raises
AttributeError before set_access_token can run: the call surfaces the raw
AttributeError with the client unchanged (its stored token still none, not
the new token from the response). The last conjunct shows the failure is
not specific to this input: no verify_agent call ever returns a success or
changes the client state, so the claimed rotation is unreachable. -/
theorem verify_agent_crashes_before_rotation :
    verify_agent clientC1 verifyTransport "a1" "k" = (.error .attributeError, clientC1) ∧
    clientC1.access_token = none ∧
    (∀ (c : AgentAuthClient) (tr : Nat → List (String × String) → TransportOutcome)
      (aid ak : String),
      (verify_agent c tr aid ak).1.isOk = false ∧ (verify_agent c tr aid ak).2 = c) := by
  refine ⟨rfl, rfl, ?_⟩
  intro c tr aid ak
  unfold verify_agent
  cases (clientRequest c tr false).1 with
  | error e => exact ⟨rfl, rfl⟩
  | ok data =>
    dsimp only
    cases VerifyAgentResponseRaw.fromJson? data with
    | none => exact ⟨rfl, rfl⟩
    | some r => exact ⟨rfl, rfl⟩

/-- Claim C2: the matcher is positionwise wildcard-or-equal over the three
segments; the wildcard example grants and the mismatch example denies; and
matching is reflexive on well-formed permissions. -/
theorem permission_matcher_spec :
    (∀ held required h0 h1 h2 r0 r1 r2 : String,
      splitPerm held = [h0, h1, h2] → splitPerm required = [r0, r1, r2] →
      (permMatches held required = true ↔
        ((h0 = "*" ∨ h0 = r0) ∧ (h1 = "*" ∨ h1 = r1) ∧ (h2 = "*" ∨ h2 = r2)))) ∧
    has_permission ["zendesk:*:*"] "zendesk:tickets:write" = true ∧
    has_permission ["zendesk:tickets:read"] "zendesk:tickets:write" = false ∧
    (∀ p : String, permWellFormed p = true → permMatches p p = true) := by
  refine ⟨?_, by rfl, by rfl, ?_⟩
  · intro held required h0 h1 h2 r0 r1 r2 hh hr
    unfold permMatches
    rw [hh, hr]
    simp [segMatches, and_assoc]
  · intro p hp
    simp only [permWellFormed, Bool.and_eq_true, beq_iff_eq] at hp
    obtain ⟨x, y, z, hxyz⟩ := List.length_eq_three.mp hp.1
    unfold permMatches
    rw [hxyz]
    simp [segMatches]

theorem permission_matcher_spec_witness :
    permMatches "zendesk:tickets:read" "zendesk:tickets:read" = true :=
  permission_matcher_spec.2.2.2 "zendesk:tickets:read" (by rfl)

theorem isPrefixOf_data_iff (p s : String) :
    p.data.isPrefixOf s.data = true ↔ ∃ rest : String, s = p ++ rest := by
  rw [ List.isPrefixOf_iff_prefix]
  constructor
  · rintro ⟨t, ht⟩
    refine ⟨String.mk t, String.ext ?_⟩
    rw [String.data_append]
    exact ht.symm
  · rintro ⟨rest, rfl⟩
    exact ⟨rest.data, (String.data_append p rest).symm⟩

theorem isSuffixOf_data_iff (p s : String) :
    p.data.isSuffixOf s.data = true ↔ ∃ pre : String, s = pre ++ p := by
  rw [List.isSuffixOf_iff_suffix]
  constructor
  · rintro ⟨t, ht⟩
    refine ⟨String.mk t, String.ext ?_⟩
    rw [String.data_append]
    exact ht.symm
  · rintro ⟨pre, rfl⟩
    exact ⟨pre.data, (String.data_append pre p).symm⟩

/-- Claim C8: base URL validation fails exactly on the empty string, on
strings not starting with the http or https scheme, and on strings ending
with a slash; the example URL is accepted; and a validation failure makes
construction fail with the same error synchronously, before any request or
retry machinery is involved. -/
theorem validate_base_url_spec :
    (∀ url : String, (validate_base_url url).isOk = false ↔
      (url = "" ∨
        ¬ (∃ rest : String, url = "http://" ++ rest ∨ url = "https://" ++ rest) ∨
        ∃ pre : String, url = pre ++ "/")) ∧
    validate_base_url "https://auth.example.com" = .ok () ∧
    (∀ base e api tok mr, validate_base_url base = .error e →
      clientInit base api tok mr = .error e) := by
  refine ⟨?_, by rfl, ?_⟩
  · intro url
    unfold validate_base_url
    split_ifs with h1 h2 h3
    · exact iff_of_true rfl (Or.inl h1)
    · refine iff_of_true rfl (Or.inr (Or.inl ?_))
      rintro ⟨rest, hrest | hrest⟩
      · have hpre : "http://".data.isPrefixOf url.data = true :=
          (isPrefixOf_data_iff _ _).mpr ⟨rest, hrest⟩
        simp [hpre] at h2
      · have hpre : "https://".data.isPrefixOf url.data = true :=
          (isPrefixOf_data_iff _ _).mpr ⟨rest, hrest⟩
        simp [hpre] at h2
    · exact iff_of_true rfl (Or.inr (Or.inr ((isSuffixOf_data_iff _ _).mp h3)))
    · refine iff_of_false (by simp [Except.isOk, Except.toBool]) ?_
      rintro (h | h | h)
      · exact h1 h
      · simp only [Bool.not_eq_true, Bool.not_eq_false', Bool.or_eq_true] at h2
        rcases h2 with ha | hb
        · obtain ⟨rest, hrest⟩ := (isPrefixOf_data_iff _ _).mp ha
          exact h ⟨rest, Or.inl hrest⟩
        · obtain ⟨rest, hrest⟩ := (isPrefixOf_data_iff _ _).mp hb
          exact h ⟨rest, Or.inr hrest⟩
      · exact h3 ((isSuffixOf_data_iff _ _).mpr h)
  · intro base e api tok mr h
    simp [clientInit, h]

theorem validate_base_url_spec_witness :
    clientInit "ftp://x" none none 3 =
      .error "Invalid base_url: must start with the http or https scheme" :=
  validate_base_url_spec.2.2 "ftp://x"
    "Invalid base_url: must start with the http or https scheme" none none 3 (by rfl)

/-- Claim C10, counterexample: a non-2xx response whose body parses as a
JSON array is not converted into AgentAuthError as the claim states; the
get call of client.py line 155 itself raises on the non-dict error body,
and the raw AttributeError propagates unwrapped. -/
theorem dispatch_error_conversion_counterexample :
    make_request rawTransport500Array false none = .error .attributeError ∧
    surfacedAsAgentAuthError (make_request rawTransport500Array false none) = false :=
  ⟨rfl, rfl⟩

/-- Claim C10, amended: inside a dispatch attempt, a non-2xx HTTP response
is converted into AgentAuthError when its body fails to parse as JSON (the
message is then the stringified underlying status error and the details the
empty dict) or parses as a JSON object (the message is then the error field
of that object when present, else the stringified underlying status error,
and the details the object); when a non-2xx body parses as non-object JSON,
the get call on the error body raises a raw AttributeError that propagates
unwrapped; a network failure and a JSON decode failure of a 2xx body
propagate raw; and every AgentAuthError surfaced by make_request stems from
a non-2xx response. -/
theorem dispatch_error_conversion_amended
    (tr : List (String × String) → TransportOutcome) (ra : Bool) (tok : Option String) :
    (∀ status, tr (buildHeaders ra tok) = .response status none →
      is_success_status status = false →
      make_request tr ra tok = .error (.agentAuthError
        (Json.str (statusLineMessage status)) status (Json.obj []))) ∧
    (∀ status fields, tr (buildHeaders ra tok) = .response status (some (.obj fields)) →
      is_success_status status = false →
      make_request tr ra tok = .error (.agentAuthError
        ((fields.lookup "error").getD (Json.str (statusLineMessage status)))
        status (.obj fields))) ∧
    (∀ status body, tr (buildHeaders ra tok) = .response status (some body) →
      is_success_status status = false → body.isObj = false →
      make_request tr ra tok = .error .attributeError) ∧
    (tr (buildHeaders ra tok) = .netError →
      make_request tr ra tok = .error .requestError) ∧
    (∀ status, tr (buildHeaders ra tok) = .response status none →
      is_success_status status = true →
      make_request tr ra tok = .error .jsonDecodeError) ∧
    (∀ m s d, make_request tr ra tok = .error (.agentAuthError m s d) →
      ∃ body, tr (buildHeaders ra tok) = .response s body ∧
        is_success_status s = false) := by
  refine ⟨?_, ?_, ?_, ?_, ?_, ?_⟩
  · intro status htr hs
    simp only [make_request]
    rw [htr]
    simp [hs]
  · intro status fields htr hs
    simp only [make_request]
    rw [htr]
    simp [hs]
  · intro status body htr hs hobj
    simp only [make_request]
    rw [htr]
    simp only [hs, Bool.false_eq_true, if_false, Option.getD_some]
    cases body <;> simp_all [Json.isObj]
  · intro htr
    simp only [make_request]
    rw [htr]
  · intro status htr hs
    simp only [make_request]
    rw [htr]
    simp [hs]
  · intro m s d h
    simp only [make_request] at h
    cases htr : tr (buildHeaders ra tok) with
    | netError =>
      rw [htr] at h
      simp at h
    | response status body =>
      rw [htr] at h
      by_cases hs : is_success_status status = true
      · cases body with
        | none => simp [hs] at h
        | some j => simp [hs] at h
      · cases hb : body.getD (Json.obj []) with
        | obj fields =>
          simp [hs, hb] at h
          obtain ⟨-, hss, -⟩ := h
          subst hss
          exact ⟨body, rfl, by simpa using hs⟩
        | null => simp [hs, hb] at h
        | bool b => simp [hs, hb] at h
        | num n => simp [hs, hb] at h
        | str s2 => simp [hs, hb] at h
        | arr xs => simp [hs, hb] at h

theorem dispatch_error_conversion_amended_witness :
    make_request rawTransport404 false none =
      .error (.agentAuthError (Json.str "not found") 404
        (Json.obj [("error", Json.str "not found")])) := by
  have h := (dispatch_error_conversion_amended rawTransport404 false none).2.1 404
    [("error", Json.str "not found")] rfl rfl
  exact h

end AgentAuth
